import Mathlib

/-!
Shallow embedding of `src/services/GeofenceService.ts` (PrepareNow).

The TypeScript module tracks a user's position against a static catalog of
circular disaster zones (`TEST_GEOFENCES`), maintains a persisted set of
currently-occupied zone identifiers (`ZoneState`), emits severity-tiered
notifications and bounded log entries on zone transitions, and exposes a
monitoring session lifecycle.

Numbers: latitudes, longitudes and radii are modelled as rationals (the source
literals are exact decimals); the haversine distance is computed over the
reals.  Asynchronous storage effects are modelled by explicit state passing:
each operation takes the persisted state and returns the new persisted state
together with the notifications dispatched, the log entries appended and the
console diagnostics (console.error / console.warn) emitted.
-/

/-- `DisasterType` from the source. -/
inductive DisasterType
  | FLOOD | FIRE | EVACUATION | STORM | EARTHQUAKE
deriving DecidableEq, Repr, Fintype

/-- `SeverityLevel` from the source. -/
inductive SeverityLevel
  | INFO | WARNING | HIGH | CRITICAL
deriving DecidableEq, Repr, Fintype

/-- `Notifications.AndroidNotificationPriority` (expo-notifications). -/
inductive AndroidNotificationPriority
  | min | low | default | high | max
deriving DecidableEq, Repr, Fintype

/-- The `ENTER` / `EXIT` literal union used for events and payloads. -/
inductive EventType
  | ENTER | EXIT
deriving DecidableEq, Repr, Fintype

/-- `Location.GeofencingEventType` (expo-location). -/
inductive GeofencingEventType
  | Enter | Exit
deriving DecidableEq, Repr, Fintype

/-- `DisasterGeofence` from the source. -/
structure DisasterGeofence where
  identifier : String
  type : DisasterType
  severity : SeverityLevel
  latitude : ℚ
  longitude : ℚ
  radius : ℚ
  notifyOnEnter : Bool
  notifyOnExit : Bool
  description : String
deriving DecidableEq, Repr

/-- A latitude / longitude pair. -/
abbrev Coords := ℚ × ℚ

/-- `Location.LocationRegion`: the region record handed to / received from the
platform.  All fields are optional in the platform type; the source checks
`region.identifier` for presence. -/
structure LocationRegion where
  identifier : Option String := none
  latitude : ℚ := 0
  longitude : ℚ := 0
  radius : ℚ := 0
  notifyOnEnter : Option Bool := none
  notifyOnExit : Option Bool := none
deriving DecidableEq, Repr

/-- `GeofenceEvent` from the source (a persisted log entry). -/
structure GeofenceEvent where
  type : EventType
  timestamp : Nat
  region : Option LocationRegion := none
  location : Option Coords := none
  disasterType : Option DisasterType := none
  severity : Option SeverityLevel := none
  zoneName : Option String := none
deriving DecidableEq, Repr

/-- `AlertContent` from the source. -/
structure AlertContent where
  title : String
  body : String
  actionText : String
  sound : Bool
  priority : AndroidNotificationPriority
deriving DecidableEq, Repr

/-- A dispatched notification: the `title`/`body`/`sound`/`priority` content
plus the `data` payload fields the source attaches
(`type`, `severity`, `action`, `zoneName`, `event`, `geofenceId`,
`timestamp`, `source`). -/
structure AlertNotification where
  title : String
  body : String
  sound : Bool
  priority : AndroidNotificationPriority
  dataType : DisasterType
  dataSeverity : SeverityLevel
  action : String
  zoneName : String
  event : EventType
  geofenceId : String
  timestamp : Nat
  source : String
deriving DecidableEq, Repr

/-- `ZoneState` from the source: the persisted occupancy document. -/
structure ZoneState where
  insideZones : List String
  lastUpdated : Nat
deriving DecidableEq, Repr

/-- `TEST_GEOFENCES` from the source: the static zone catalog. -/
def TEST_GEOFENCES : List DisasterGeofence := [
  { identifier := "flood-derby-center", type := .FLOOD, severity := .HIGH,
    latitude := 52.9225, longitude := -1.4746, radius := 1000,
    notifyOnEnter := true, notifyOnExit := true,
    description := "Derby City Centre - High Flood Risk Zone" },
  { identifier := "evacuation-zone-north", type := .EVACUATION, severity := .CRITICAL,
    latitude := 52.93, longitude := -1.48, radius := 800,
    notifyOnEnter := true, notifyOnExit := true,
    description := "North Derby - Mandatory Evacuation Zone" },
  { identifier := "fire-risk-west", type := .FIRE, severity := .WARNING,
    latitude := 52.918, longitude := -1.49, radius := 800,
    notifyOnEnter := true, notifyOnExit := true,
    description := "West Derby - Wildfire Risk Area" },
  { identifier := "storm-warning-east", type := .STORM, severity := .WARNING,
    latitude := 52.925, longitude := -1.46, radius := 1000,
    notifyOnEnter := true, notifyOnExit := true,
    description := "East Derby - Severe Storm Warning" }]

/-- `getDisasterAlertContent` from the source: the notification composer.
Exit (`isEntering = false`) short-circuits to one shared template; entry looks
up the fixed 5 x 4 table. -/
def getDisasterAlertContent (t : DisasterType) (s : SeverityLevel)
    (isEntering : Bool) : AlertContent :=
  if !isEntering then
    { title := "Safe Zone",
      body := "You have exited the emergency zone. Stay alert and monitor updates.",
      actionText := "You are now in a safer area",
      sound := true, priority := .default }
  else
    match t, s with
    | .FLOOD, .INFO =>
      { title := "Flood Information",
        body := "You are entering a flood watch area. Monitor weather conditions.",
        actionText := "Stay informed about weather updates",
        sound := true, priority := .default }
    | .FLOOD, .WARNING =>
      { title := "Flood Warning",
        body := "FLOOD WARNING: Avoid low-lying areas. Do not drive through water.",
        actionText := "Move to higher ground if needed",
        sound := true, priority := .high }
    | .FLOOD, .HIGH =>
      { title := "HIGH FLOOD RISK",
        body := "DANGER: High flood risk zone. Move to higher ground immediately. Avoid water.",
        actionText := "Evacuate to higher ground NOW",
        sound := true, priority := .max }
    | .FLOOD, .CRITICAL =>
      { title := "CRITICAL FLOOD DANGER",
        body := "LIFE-THREATENING FLOODING. Evacuate immediately to high ground. Call 999 if trapped.",
        actionText := "EVACUATE NOW - Life threatening",
        sound := true, priority := .max }
    | .FIRE, .INFO =>
      { title := "Fire Watch",
        body := "Fire watch area. Be aware of smoke and follow local guidance.",
        actionText := "Monitor air quality",
        sound := true, priority := .default }
    | .FIRE, .WARNING =>
      { title := "Fire Warning",
        body := "WILDFIRE WARNING: Stay indoors. Close windows. Prepare to evacuate.",
        actionText := "Prepare evacuation kit",
        sound := true, priority := .high }
    | .FIRE, .HIGH =>
      { title := "HIGH FIRE DANGER",
        body := "EXTREME FIRE RISK: Evacuate if ordered. Have go-bag ready. Close all windows.",
        actionText := "Be ready to evacuate",
        sound := true, priority := .max }
    | .FIRE, .CRITICAL =>
      { title := "FIRE EVACUATION",
        body := "IMMEDIATE EVACUATION REQUIRED. Leave now. Do not return. Call 999 for help.",
        actionText := "LEAVE IMMEDIATELY",
        sound := true, priority := .max }
    | .EVACUATION, .INFO =>
      { title := "Evacuation Notice",
        body := "Evacuation may be required. Stay informed and prepare essentials.",
        actionText := "Prepare evacuation plan",
        sound := true, priority := .default }
    | .EVACUATION, .WARNING =>
      { title := "Evacuation Warning",
        body := "EVACUATION LIKELY: Pack essentials. Identify evacuation routes. Stand by.",
        actionText := "Prepare to leave soon",
        sound := true, priority := .high }
    | .EVACUATION, .HIGH =>
      { title := "Evacuation Order",
        body := "MANDATORY EVACUATION: Leave immediately. Take essentials only. Follow official routes.",
        actionText := "EVACUATE NOW",
        sound := true, priority := .max }
    | .EVACUATION, .CRITICAL =>
      { title := "IMMEDIATE EVACUATION",
        body := "LIFE-THREATENING SITUATION. Leave NOW. Do not delay. Call 999 if unable to evacuate.",
        actionText := "LEAVE IMMEDIATELY - Critical",
        sound := true, priority := .max }
    | .STORM, .INFO =>
      { title := "Storm Watch",
        body := "Storm conditions possible. Secure loose objects. Stay updated.",
        actionText := "Prepare for storm",
        sound := true, priority := .default }
    | .STORM, .WARNING =>
      { title := "Storm Warning",
        body := "SEVERE STORM: Stay indoors. Avoid windows. Secure outdoor items.",
        actionText := "Take shelter indoors",
        sound := true, priority := .high }
    | .STORM, .HIGH =>
      { title := "SEVERE STORM",
        body := "DANGEROUS STORM: Move to interior room. Stay away from windows. Avoid travel.",
        actionText := "Shelter in safe location",
        sound := true, priority := .max }
    | .STORM, .CRITICAL =>
      { title := "EXTREME STORM",
        body := "LIFE-THREATENING STORM. Take shelter immediately in basement or interior room. Call 999 for emergencies.",
        actionText := "TAKE SHELTER NOW",
        sound := true, priority := .max }
    | .EARTHQUAKE, .INFO =>
      { title := "Earthquake Information",
        body := "Recent seismic activity detected. Review earthquake safety procedures.",
        actionText := "Review safety procedures",
        sound := true, priority := .default }
    | .EARTHQUAKE, .WARNING =>
      { title := "Earthquake Alert",
        body := "EARTHQUAKE RISK: Secure heavy objects. Know safe spots. Drop, Cover, Hold On.",
        actionText := "Be prepared to take cover",
        sound := true, priority := .high }
    | .EARTHQUAKE, .HIGH =>
      { title := "Earthquake Zone",
        body := "HIGH EARTHQUAKE RISK: Identify safe areas. Prepare for aftershocks. Stay alert.",
        actionText := "Drop, Cover, Hold On if shaking",
        sound := true, priority := .max }
    | .EARTHQUAKE, .CRITICAL =>
      { title := "EARTHQUAKE EMERGENCY",
        body := "MAJOR EARTHQUAKE: Drop, Cover, Hold On. Stay away from buildings. Expect aftershocks.",
        actionText := "TAKE COVER - Stay safe",
        sound := true, priority := .max }

/-- `getGeofenceDetails` from the source: catalog lookup by identifier. -/
def getGeofenceDetails (identifier : String) : Option DisasterGeofence :=
  TEST_GEOFENCES.find? (fun g => g.identifier == identifier)

/-- `logEvent` from the source, as a pure function on the stored log:
`logs.unshift(event); if (logs.length > 50) logs.pop();`. -/
def logEvent (event : GeofenceEvent) (logs : List GeofenceEvent) :
    List GeofenceEvent :=
  let logs' := event :: logs
  if logs'.length > 50 then logs'.dropLast else logs'

/-- `getZoneState` from the source: parse the stored document, defaulting to an
empty state with a fresh timestamp when nothing is persisted. -/
def getZoneState (stored : Option ZoneState) (now : Nat) : ZoneState :=
  stored.getD { insideZones := [], lastUpdated := now }

/-- `addToInsideZones` from the source: append the identifier (and save) only
when it is not already present. -/
def addToInsideZones (zoneId : String) (now : Nat) (st : ZoneState) : ZoneState :=
  if zoneId ∈ st.insideZones then st
  else { insideZones := st.insideZones ++ [zoneId], lastUpdated := now }

/-- `removeFromInsideZones` from the source: `indexOf` + `splice` removes the
first occurrence (and saves) only when the identifier is present. -/
def removeFromInsideZones (zoneId : String) (now : Nat) (st : ZoneState) : ZoneState :=
  if zoneId ∈ st.insideZones then
    { insideZones := st.insideZones.erase zoneId, lastUpdated := now }
  else st

/-- `clearZoneState` from the source: `AsyncStorage.removeItem`. -/
def clearZoneState : Option ZoneState := none

/-- The observable outcome of one reconciliation pass or background-task run:
notifications dispatched, log entries appended, the resulting persisted
occupancy state, whether `setZoneState` was called, and the console
error/warn diagnostics emitted. -/
structure PassResult where
  notifications : List AlertNotification
  events : List GeofenceEvent
  state : ZoneState
  stateWritten : Bool
  diagnostics : List String
deriving DecidableEq, Repr

/-- The ENTER notification the point-based paths dispatch for a zone. -/
def enterNotification (src : String) (g : DisasterGeofence) (now : Nat) :
    AlertNotification :=
  let c := getDisasterAlertContent g.type g.severity true
  { title := "⚠️ " ++ c.title, body := c.body, sound := c.sound,
    priority := c.priority, dataType := g.type, dataSeverity := g.severity,
    action := c.actionText, zoneName := g.description, event := .ENTER,
    geofenceId := g.identifier, timestamp := now, source := src }

/-- The EXIT notification the point-based paths dispatch for a zone. -/
def exitNotification (src : String) (g : DisasterGeofence) (now : Nat) :
    AlertNotification :=
  let c := getDisasterAlertContent g.type g.severity false
  { title := "✅ " ++ c.title,
    body := "You have left " ++ g.description ++ ". " ++ c.body,
    sound := c.sound, priority := c.priority, dataType := g.type,
    dataSeverity := g.severity, action := c.actionText,
    zoneName := g.description, event := .EXIT, geofenceId := g.identifier,
    timestamp := now, source := src }

/-- The ENTER log entry the point-based paths append for a zone. -/
def enterLogEntry (g : DisasterGeofence) (loc : Coords) (now : Nat) :
    GeofenceEvent :=
  { type := .ENTER, timestamp := now, location := some loc,
    disasterType := some g.type, severity := some g.severity,
    zoneName := some g.description }

/-- The EXIT log entry the point-based paths append for a zone. -/
def exitLogEntry (g : DisasterGeofence) (loc : Coords) (now : Nat) :
    GeofenceEvent :=
  { type := .EXIT, timestamp := now, location := some loc,
    disasterType := some g.type, severity := some g.severity,
    zoneName := some g.description }

/-- What one pass of the shared per-zone loop produces. -/
structure ReconcileOutput where
  notifications : List AlertNotification
  events : List GeofenceEvent
  insideIds : List String
deriving DecidableEq, Repr

/-- The per-zone loop shared verbatim by `checkInitialPosition` and
`handleLocationUpdate` (they differ only in the payload `source` string and
in the final state-write policy): for each catalog zone, if the point is
inside, record the identifier and emit ENTER when it was not previously
inside; otherwise emit EXIT when it was previously inside.  `inside` is the
containment test the loop applies to each zone. -/
def reconcileZones (src : String) (inside : DisasterGeofence → Bool)
    (prev : List String) (loc : Coords) (now : Nat) :
    List DisasterGeofence → ReconcileOutput
  | [] => { notifications := [], events := [], insideIds := [] }
  | g :: rest =>
    let out := reconcileZones src inside prev loc now rest
    if inside g then
      if g.identifier ∈ prev then
        { out with insideIds := g.identifier :: out.insideIds }
      else
        { notifications := enterNotification src g now :: out.notifications,
          events := enterLogEntry g loc now :: out.events,
          insideIds := g.identifier :: out.insideIds }
    else
      if g.identifier ∈ prev then
        { out with
          notifications := exitNotification src g now :: out.notifications,
          events := exitLogEntry g loc now :: out.events }
      else out

/-- `checkInitialPosition` with the location already obtained, over an
explicit catalog and containment test: runs the loop and unconditionally
persists the computed inside-set. -/
def checkInitialPositionOn (catalog : List DisasterGeofence)
    (inside : DisasterGeofence → Bool) (loc : Coords) (now : Nat)
    (st : ZoneState) : PassResult :=
  let out := reconcileZones "initial_check" inside st.insideZones loc now catalog
  { notifications := out.notifications, events := out.events,
    state := { insideZones := out.insideIds, lastUpdated := now },
    stateWritten := true, diagnostics := [] }

/-- `handleLocationUpdate` over an explicit catalog and containment test:
runs the loop, then writes the new state only when the sorted identifier
lists differ (`JSON.stringify(new.sort()) !== JSON.stringify(old.sort())`).
JavaScript `.sort()` mutates the array in place, so when the write happens
the persisted list is the sorted one. -/
def handleLocationUpdateOn (catalog : List DisasterGeofence)
    (inside : DisasterGeofence → Bool) (loc : Coords) (now : Nat)
    (st : ZoneState) : PassResult :=
  let out := reconcileZones "foreground_watch" inside st.insideZones loc now catalog
  let sortedNew := out.insideIds.mergeSort (fun a b => a ≤ b)
  let sortedOld := st.insideZones.mergeSort (fun a b => a ≤ b)
  if sortedNew ≠ sortedOld then
    { notifications := out.notifications, events := out.events,
      state := { insideZones := sortedNew, lastUpdated := now },
      stateWritten := true, diagnostics := [] }
  else
    { notifications := out.notifications, events := out.events,
      state := st, stateWritten := false, diagnostics := [] }

/-- `calculateDistance`'s `Math.atan2`, on the reals. -/
noncomputable def atan2 (y x : ℝ) : ℝ :=
  if 0 < x then Real.arctan (y / x)
  else if x < 0 ∧ 0 ≤ y then Real.arctan (y / x) + Real.pi
  else if x < 0 ∧ y < 0 then Real.arctan (y / x) - Real.pi
  else if x = 0 ∧ 0 < y then Real.pi / 2
  else if x = 0 ∧ y < 0 then -(Real.pi / 2)
  else 0

/-- `calculateDistance` from the source: haversine great-circle distance with
Earth radius 6,371,000 m. -/
noncomputable def calculateDistance (lat1 lon1 lat2 lon2 : ℝ) : ℝ :=
  let R : ℝ := 6371000
  let toRad : ℝ → ℝ := fun d => d * Real.pi / 180
  let phi1 := toRad lat1
  let phi2 := toRad lat2
  let dphi := toRad (lat2 - lat1)
  let dlam := toRad (lon2 - lon1)
  let a := Real.sin (dphi / 2) ^ 2 +
    Real.cos phi1 * Real.cos phi2 * Real.sin (dlam / 2) ^ 2
  R * 2 * atan2 (Real.sqrt a) (Real.sqrt (1 - a))

/-- The containment test every point-based call site applies:
`calculateDistance(location, zone) <= zone.radius` (boundary-inclusive). -/
def zoneContains (g : DisasterGeofence) (loc : Coords) : Prop :=
  calculateDistance (loc.1 : ℝ) (loc.2 : ℝ) (g.latitude : ℝ) (g.longitude : ℝ)
    ≤ (g.radius : ℝ)

/-- The Boolean containment test as evaluated by the source at a point. -/
noncomputable def insideZone (loc : Coords) (g : DisasterGeofence) : Bool :=
  @decide (zoneContains g loc) (Classical.propDecidable _)

/-- `checkInitialPosition` from the source: `none` models the positioning
collaborator throwing (the `catch` branch logs a console error and returns
without touching state or dispatching anything). -/
noncomputable def checkInitialPosition (loc : Option Coords) (now : Nat)
    (st : ZoneState) : PassResult :=
  match loc with
  | none =>
    { notifications := [], events := [], state := st, stateWritten := false,
      diagnostics := ["Error checking initial position"] }
  | some l => checkInitialPositionOn TEST_GEOFENCES (insideZone l) l now st

/-- `handleLocationUpdate` from the source, at a real observed point. -/
noncomputable def handleLocationUpdate (loc : Coords) (now : Nat)
    (st : ZoneState) : PassResult :=
  handleLocationUpdateOn TEST_GEOFENCES (insideZone loc) loc now st

/-- The `{ data, error }` argument of the `GEOFENCE_TASK` background handler. -/
structure GeofenceTaskData where
  eventType : Option GeofencingEventType := none
  region : Option LocationRegion := none
deriving DecidableEq, Repr

/-- The full task body: `data` may itself be absent. -/
structure TaskBody where
  data : Option GeofenceTaskData := none
  error : Option String := none
deriving DecidableEq, Repr

/-- The `GEOFENCE_TASK` background handler (the signal-based reconciler form):
on error it appends a degraded ERROR log entry and returns; on missing event
type / region / identifier or an unknown identifier it warns and returns;
otherwise it composes the alert for the signalled direction, updates the
occupancy set by adding or removing that one identifier, dispatches the
notification and appends the log entry. -/
def geofenceTask (body : TaskBody) (now : Nat) (st : ZoneState) : PassResult :=
  match body.error with
  | some msg =>
    { notifications := [],
      events := [{ type := .ENTER, timestamp := now,
                   zoneName := some ("ERROR: " ++ msg) }],
      state := st, stateWritten := false,
      diagnostics := ["Geofence task error: " ++ msg] }
  | none =>
    match body.data.bind (·.eventType), body.data.bind (·.region) with
    | some eventType, some region =>
      match region.identifier with
      | some identifier =>
        match getGeofenceDetails identifier with
        | some geofence =>
          let isEntering : Bool := decide (eventType = GeofencingEventType.Enter)
          let alertContent :=
            getDisasterAlertContent geofence.type geofence.severity isEntering
          let st' := if isEntering then addToInsideZones identifier now st
                     else removeFromInsideZones identifier now st
          { notifications := [{
              title := (if isEntering then "⚠️ " else "✅ ") ++ alertContent.title,
              body := if isEntering then alertContent.body
                      else "You have left " ++ geofence.description ++ ". " ++
                        alertContent.body,
              sound := alertContent.sound,
              priority := if isEntering then alertContent.priority
                          else AndroidNotificationPriority.default,
              dataType := geofence.type, dataSeverity := geofence.severity,
              action := alertContent.actionText, zoneName := geofence.description,
              event := if isEntering then .ENTER else .EXIT,
              geofenceId := geofence.identifier, timestamp := now,
              source := "background_geofence" }],
            events := [{ type := if isEntering then .ENTER else .EXIT,
                         timestamp := now, region := some region,
                         disasterType := some geofence.type,
                         severity := some geofence.severity,
                         zoneName := some geofence.description }],
            state := st',
            stateWritten := if isEntering then decide (identifier ∉ st.insideZones)
                            else decide (identifier ∈ st.insideZones),
            diagnostics := [] }
        | none =>
          { notifications := [], events := [], state := st, stateWritten := false,
            diagnostics := ["Unknown geofence identifier: " ++ identifier] }
      | none =>
        { notifications := [], events := [], state := st, stateWritten := false,
          diagnostics := ["Geofence region had no identifier"] }
    | _, _ =>
      { notifications := [], events := [], state := st, stateWritten := false,
        diagnostics := ["Missing event type or region"] }

/-- The observable outcome of `stopGeofencing`. -/
structure StopResult where
  stored : Option ZoneState
  fgWatchStopped : Bool
  bgUnregistered : Bool
deriving DecidableEq, Repr

/-- `stopGeofencing` from the source: always stops the foreground watch; when
the background task is not registered it returns early, otherwise it stops
geofencing and clears the zone state. -/
def stopGeofencing (registered : Bool) (stored : Option ZoneState) : StopResult :=
  if !registered then
    { stored := stored, fgWatchStopped := true, bgUnregistered := false }
  else
    { stored := clearZoneState, fgWatchStopped := true, bgUnregistered := true }

/-- The region list `startGeofencing` registers with the platform (step 6 of
the source): the only place the notify flags are passed on. -/
def startGeofencingRegions (catalog : List DisasterGeofence) :
    List LocationRegion :=
  catalog.map fun g =>
    { identifier := some g.identifier, latitude := g.latitude,
      longitude := g.longitude, radius := g.radius,
      notifyOnEnter := some g.notifyOnEnter, notifyOnExit := some g.notifyOnExit }

/-- Number of dispatched notifications with the given direction and payload
`geofenceId`. -/
def notifCount (ns : List AlertNotification) (ev : EventType)
    (zoneId : String) : Nat :=
  (ns.filter fun n => decide (n.event = ev) && decide (n.geofenceId = zoneId)).length

/-- Number of appended log entries with the given direction and `zoneName`. -/
def eventCount (es : List GeofenceEvent) (ev : EventType)
    (zname : String) : Nat :=
  (es.filter fun e => decide (e.type = ev) && decide (e.zoneName = some zname)).length

/-- Modelled from the spec: `entered = currentlyInside − previouslyInside`,
literally as worded, over identifier lists. -/
def specEntered (currentlyInside previouslyInside : List String) : List String :=
  currentlyInside.filter fun z => !(decide (z ∈ previouslyInside))

/-- Modelled from the spec: `exited = previouslyInside − currentlyInside`,
literally as worded, over identifier lists. -/
def specExited (previouslyInside currentlyInside : List String) : List String :=
  previouslyInside.filter fun z => !(decide (z ∈ currentlyInside))

/-- The identifiers of the catalog zones containing the observed point —
the `currentlyInside` set the point-based reconciler computes. -/
noncomputable def currentlyInsideIds (loc : Coords) : List String :=
  (TEST_GEOFENCES.filter (insideZone loc)).map (·.identifier)

/-- The spec's severity order INFO < WARNING < HIGH < CRITICAL, as a rank. -/
def severityRank : SeverityLevel → Nat
  | .INFO => 0
  | .WARNING => 1
  | .HIGH => 2
  | .CRITICAL => 3

/-- The platform's delivery-priority order MIN < LOW < DEFAULT < HIGH < MAX,
as a rank. -/
def priorityRank : AndroidNotificationPriority → Nat
  | .min => 0
  | .low => 1
  | .default => 2
  | .high => 3
  | .max => 4

/-! ### Structural lemmas about the shared per-zone loop -/

/-- The inside-set the loop computes is exactly the identifiers of the catalog
zones containing the point, in catalog order. -/
theorem reconcileZones_insideIds (src : String) (inside : DisasterGeofence → Bool)
    (prev : List String) (loc : Coords) (now : Nat) (cat : List DisasterGeofence) :
    (reconcileZones src inside prev loc now cat).insideIds
      = (cat.filter inside).map (·.identifier) := by
  induction cat with
  | nil => rfl
  | cons g rest ih =>
    simp only [reconcileZones, List.filter_cons]
    by_cases hin : inside g = true
    · by_cases hprev : g.identifier ∈ prev <;> simp [hin, hprev, ih]
    · by_cases hprev : g.identifier ∈ prev <;>
        simp [Bool.of_not_eq_true hin, hprev, ih]

/-- ENTER notification count: one per catalog zone that contains the point,
was not previously inside, and carries the queried identifier. -/
theorem reconcileZones_enterCount (src : String) (inside : DisasterGeofence → Bool)
    (prev : List String) (loc : Coords) (now : Nat) (cat : List DisasterGeofence)
    (z : String) :
    notifCount (reconcileZones src inside prev loc now cat).notifications .ENTER z
      = ((cat.filter fun g =>
          inside g && !(decide (g.identifier ∈ prev)) && g.identifier == z)).length := by
  induction cat with
  | nil => rfl
  | cons g rest ih =>
    simp only [notifCount] at ih ⊢
    simp only [reconcileZones, List.filter_cons]
    by_cases hin : inside g = true
    · by_cases hprev : g.identifier ∈ prev
      · simp [hin, hprev, ih]
      · by_cases hz : g.identifier = z
        · subst hz
          simp [hin, hprev, enterNotification, ih]
        · simp [hin, hprev, hz, enterNotification, ih]
    · by_cases hprev : g.identifier ∈ prev
      · simp [Bool.of_not_eq_true hin, hprev, exitNotification, ih]
      · simp [Bool.of_not_eq_true hin, hprev, ih]

/-- EXIT notification count: one per catalog zone that does not contain the
point, was previously inside, and carries the queried identifier. -/
theorem reconcileZones_exitCount (src : String) (inside : DisasterGeofence → Bool)
    (prev : List String) (loc : Coords) (now : Nat) (cat : List DisasterGeofence)
    (z : String) :
    notifCount (reconcileZones src inside prev loc now cat).notifications .EXIT z
      = ((cat.filter fun g =>
          !(inside g) && decide (g.identifier ∈ prev) && g.identifier == z)).length := by
  induction cat with
  | nil => rfl
  | cons g rest ih =>
    simp only [notifCount] at ih ⊢
    simp only [reconcileZones, List.filter_cons]
    by_cases hin : inside g = true
    · by_cases hprev : g.identifier ∈ prev
      · simp [hin, hprev, ih]
      · simp [hin, hprev, enterNotification, ih]
    · by_cases hprev : g.identifier ∈ prev
      · by_cases hz : g.identifier = z
        · subst hz
          simp [Bool.of_not_eq_true hin, hprev, exitNotification, ih]
        · simp [Bool.of_not_eq_true hin, hprev, hz, exitNotification, ih]
      · simp [Bool.of_not_eq_true hin, hprev, ih]

/-- ENTER log-entry count, keyed by the zone name carried in the entry. -/
theorem reconcileZones_enterEventCount (src : String)
    (inside : DisasterGeofence → Bool) (prev : List String) (loc : Coords)
    (now : Nat) (cat : List DisasterGeofence) (dname : String) :
    eventCount (reconcileZones src inside prev loc now cat).events .ENTER dname
      = ((cat.filter fun g =>
          inside g && !(decide (g.identifier ∈ prev)) && g.description == dname)).length := by
  induction cat with
  | nil => rfl
  | cons g rest ih =>
    simp only [eventCount] at ih ⊢
    simp only [reconcileZones, List.filter_cons]
    by_cases hin : inside g = true
    · by_cases hprev : g.identifier ∈ prev
      · simp [hin, hprev, ih]
      · by_cases hd : g.description = dname
        · subst hd
          simp [hin, hprev, enterLogEntry, ih]
        · simp [hin, hprev, hd, enterLogEntry, ih]
    · by_cases hprev : g.identifier ∈ prev
      · simp [Bool.of_not_eq_true hin, hprev, exitLogEntry, ih]
      · simp [Bool.of_not_eq_true hin, hprev, ih]

/-- EXIT log-entry count, keyed by the zone name carried in the entry. -/
theorem reconcileZones_exitEventCount (src : String)
    (inside : DisasterGeofence → Bool) (prev : List String) (loc : Coords)
    (now : Nat) (cat : List DisasterGeofence) (dname : String) :
    eventCount (reconcileZones src inside prev loc now cat).events .EXIT dname
      = ((cat.filter fun g =>
          !(inside g) && decide (g.identifier ∈ prev) && g.description == dname)).length := by
  induction cat with
  | nil => rfl
  | cons g rest ih =>
    simp only [eventCount] at ih ⊢
    simp only [reconcileZones, List.filter_cons]
    by_cases hin : inside g = true
    · by_cases hprev : g.identifier ∈ prev
      · simp [hin, hprev, ih]
      · simp [hin, hprev, enterLogEntry, ih]
    · by_cases hprev : g.identifier ∈ prev
      · by_cases hd : g.description = dname
        · subst hd
          simp [Bool.of_not_eq_true hin, hprev, exitLogEntry, ih]
        · simp [Bool.of_not_eq_true hin, hprev, hd, exitLogEntry, ih]
      · simp [Bool.of_not_eq_true hin, hprev, ih]

/-- When containment already agrees with the previous inside-set on every
catalog zone, the loop emits nothing. -/
theorem reconcileZones_no_emissions (src : String)
    (inside : DisasterGeofence → Bool) (prev : List String) (loc : Coords)
    (now : Nat) (cat : List DisasterGeofence)
    (h : ∀ g ∈ cat, inside g = true ↔ g.identifier ∈ prev) :
    (reconcileZones src inside prev loc now cat).notifications = []
      ∧ (reconcileZones src inside prev loc now cat).events = [] := by
  induction cat with
  | nil => exact ⟨rfl, rfl⟩
  | cons g rest ih =>
    have hg := h g (List.mem_cons_self g rest)
    have ihr := ih (fun g' hg' => h g' (List.mem_cons_of_mem g hg'))
    simp only [reconcileZones]
    by_cases hin : inside g = true
    · have hprev : g.identifier ∈ prev := hg.mp hin
      simp [hin, hprev, ihr]
    · have hprev : g.identifier ∉ prev := fun hp => hin (hg.mpr hp)
      simp [Bool.of_not_eq_true hin, hprev, ihr]

/-! ### Pass-level lemmas -/

/-- The foreground handler's notifications are those of the loop (the final
if only selects the state write). -/
theorem handleLocationUpdateOn_notifications (cat : List DisasterGeofence)
    (inside : DisasterGeofence → Bool) (loc : Coords) (now : Nat) (st : ZoneState) :
    (handleLocationUpdateOn cat inside loc now st).notifications
      = (reconcileZones "foreground_watch" inside st.insideZones loc now cat).notifications := by
  unfold handleLocationUpdateOn
  dsimp only
  split <;> rfl

/-- The foreground handler's log entries are those of the loop. -/
theorem handleLocationUpdateOn_events (cat : List DisasterGeofence)
    (inside : DisasterGeofence → Bool) (loc : Coords) (now : Nat) (st : ZoneState) :
    (handleLocationUpdateOn cat inside loc now st).events
      = (reconcileZones "foreground_watch" inside st.insideZones loc now cat).events := by
  unfold handleLocationUpdateOn
  dsimp only
  split <;> rfl

/-- After a foreground pass the persisted set is membership-equal to the
computed inside-set — whether or not the write was skipped, since it is
skipped exactly when the sorted lists agree. -/
theorem handleLocationUpdateOn_state_mem (cat : List DisasterGeofence)
    (inside : DisasterGeofence → Bool) (loc : Coords) (now : Nat) (st : ZoneState)
    (z : String) :
    (z ∈ (handleLocationUpdateOn cat inside loc now st).state.insideZones
      ↔ z ∈ (cat.filter inside).map (·.identifier)) := by
  unfold handleLocationUpdateOn
  dsimp only
  split
  · simp [List.mem_mergeSort, reconcileZones_insideIds]
  · rename_i h
    rw [not_not] at h
    rw [← reconcileZones_insideIds "foreground_watch" inside st.insideZones loc now cat]
    have h1 : z ∈ st.insideZones
        ↔ z ∈ st.insideZones.mergeSort (fun a b => a ≤ b) :=
      List.mem_mergeSort.symm
    have h2 : z ∈ ((reconcileZones "foreground_watch" inside st.insideZones loc now
          cat).insideIds.mergeSort (fun a b => a ≤ b))
        ↔ z ∈ (reconcileZones "foreground_watch" inside st.insideZones loc now
          cat).insideIds :=
      List.mem_mergeSort
    rw [h1, ← h2, h]

/-- After the one-shot initial check the persisted set is exactly the computed
inside-set. -/
theorem checkInitialPositionOn_state (cat : List DisasterGeofence)
    (inside : DisasterGeofence → Bool) (loc : Coords) (now : Nat) (st : ZoneState) :
    (checkInitialPositionOn cat inside loc now st).state.insideZones
      = (cat.filter inside).map (·.identifier) := by
  simp [checkInitialPositionOn, reconcileZones_insideIds]

/-- Counting a keyed filter under a nodup key list: at most one catalog zone
can match the key, so the count collapses to membership. -/
theorem length_filter_key_eq (P : DisasterGeofence → Bool)
    (key : DisasterGeofence → String) (z : String) (cat : List DisasterGeofence)
    (hnd : (cat.map key).Nodup) :
    ((cat.filter fun g => P g && key g == z)).length
      = if z ∈ (cat.filter P).map key then 1 else 0 := by
  induction cat with
  | nil => simp
  | cons g rest ih =>
    simp only [List.map_cons, List.nodup_cons] at hnd
    obtain ⟨hg, hnd'⟩ := hnd
    have ihr := ih hnd'
    rw [List.filter_cons, List.filter_cons]
    by_cases hp : P g = true
    · by_cases hz : key g = z
      · subst hz
        have hzrest : key g ∉ (rest.filter P).map key := by
          intro hmem
          obtain ⟨a, ha, hak⟩ := List.mem_map.mp hmem
          exact hg (List.mem_map.mpr ⟨a, List.mem_of_mem_filter ha, hak⟩)
        have h1 : (P g && (key g == key g)) = true := by simp [hp]
        rw [if_pos h1, if_pos hp, List.length_cons, ihr, if_neg hzrest, List.map_cons]
        simp
      · have h1 : ¬ ((P g && (key g == z)) = true) := by simp [hz]
        have h2 : (z ∈ (g :: rest.filter P).map key) ↔ (z ∈ (rest.filter P).map key) := by
          simp [List.mem_cons, Ne.symm hz]
        rw [if_neg h1, if_pos hp, ihr, if_congr h2 rfl rfl]
    · have h1 : ¬ ((P g && (key g == z)) = true) := by simp [hp]
      rw [if_neg h1, if_neg hp, ihr]

/-- Under a nodup key list, a catalog zone's key appears among the keys of the
filtered catalog exactly when the zone itself passes the filter. -/
theorem mem_key_filter_iff (P : DisasterGeofence → Bool)
    (key : DisasterGeofence → String) (cat : List DisasterGeofence)
    (hnd : (cat.map key).Nodup) (g : DisasterGeofence) (hg : g ∈ cat) :
    (key g ∈ (cat.filter P).map key ↔ P g = true) := by
  constructor
  · intro hmem
    obtain ⟨a, ha, hak⟩ := List.mem_map.mp hmem
    obtain ⟨hamem, hap⟩ := List.mem_filter.mp ha
    have : a = g := List.inj_on_of_nodup_map hnd hamem hg hak
    exact this ▸ hap
  · intro hp
    exact List.mem_map.mpr ⟨g, List.mem_filter.mpr ⟨hg, hp⟩, rfl⟩

/-- Membership in the entered-identifier list of the loop is exactly
membership in the spec's `entered = currentlyInside − previouslyInside`. -/
theorem mem_entered_iff (inside : DisasterGeofence → Bool) (prev : List String)
    (cat : List DisasterGeofence) (z : String) :
    (z ∈ (cat.filter fun g => inside g && !(decide (g.identifier ∈ prev))).map (·.identifier)
      ↔ z ∈ specEntered ((cat.filter inside).map (·.identifier)) prev) := by
  simp only [specEntered, List.mem_filter, List.mem_map, Bool.and_eq_true,
    Bool.not_eq_true', decide_eq_false_iff_not]
  constructor
  · rintro ⟨g, ⟨hgmem, hgin, hgprev⟩, rfl⟩
    exact ⟨⟨g, ⟨hgmem, hgin⟩, rfl⟩, hgprev⟩
  · rintro ⟨⟨g, ⟨hgmem, hgin⟩, rfl⟩, hzprev⟩
    exact ⟨g, ⟨hgmem, hgin, hzprev⟩, rfl⟩

/-- Membership in the exited-identifier list of the loop: the spec's
`exited = previouslyInside − currentlyInside`, restricted to catalog
identifiers.  Needs nodup identifiers for the forward direction. -/
theorem mem_exited_iff (inside : DisasterGeofence → Bool) (prev : List String)
    (cat : List DisasterGeofence) (hnd : (cat.map (·.identifier)).Nodup) (z : String) :
    (z ∈ (cat.filter fun g => !(inside g) && decide (g.identifier ∈ prev)).map (·.identifier)
      ↔ z ∈ cat.map (·.identifier)
          ∧ z ∈ specExited prev ((cat.filter inside).map (·.identifier))) := by
  constructor
  · intro hmem
    obtain ⟨g, hgf, rfl⟩ := List.mem_map.mp hmem
    obtain ⟨hgmem, hgp⟩ := List.mem_filter.mp hgf
    simp only [Bool.and_eq_true, Bool.not_eq_true', decide_eq_true_eq] at hgp
    obtain ⟨hgout, hgprev⟩ := hgp
    refine ⟨List.mem_map.mpr ⟨g, hgmem, rfl⟩, ?_⟩
    simp only [specExited, List.mem_filter, Bool.not_eq_true', decide_eq_false_iff_not]
    refine ⟨hgprev, ?_⟩
    intro hcur
    obtain ⟨a, haf, hak⟩ := List.mem_map.mp hcur
    obtain ⟨hamem, hain⟩ := List.mem_filter.mp haf
    have hag : a = g := List.inj_on_of_nodup_map hnd hamem hgmem hak
    subst hag
    simp [hain] at hgout
  · rintro ⟨hcat, hrest⟩
    simp only [specExited, List.mem_filter, Bool.not_eq_true',
      decide_eq_false_iff_not] at hrest
    obtain ⟨hprev, hcur⟩ := hrest
    obtain ⟨g, hgmem, rfl⟩ := List.mem_map.mp hcat
    have hgout : inside g = false := by
      cases hin : inside g
      · rfl
      · exact absurd (List.mem_map.mpr ⟨g, List.mem_filter.mpr ⟨hgmem, hin⟩, rfl⟩) hcur
    exact List.mem_map.mpr ⟨g,
      List.mem_filter.mpr ⟨hgmem, by simp [hgout, hprev]⟩, rfl⟩

/-- The catalog's identifiers are pairwise distinct. -/
theorem test_geofences_ids_nodup : (TEST_GEOFENCES.map (·.identifier)).Nodup := by
  decide

/-- The catalog's descriptions are pairwise distinct. -/
theorem test_geofences_descriptions_nodup :
    (TEST_GEOFENCES.map (·.description)).Nodup := by
  decide

/-- C1 (amended): for every observed point and every previously persisted
state, the foreground reconciler dispatches exactly one ENTER notification
and exactly one ENTER log entry per identifier in
`entered = currentlyInside − previouslyInside`, exactly one EXIT notification
and exactly one EXIT log entry per catalog identifier in
`exited = previouslyInside − currentlyInside` (a stale identifier absent from
the catalog produces no EXIT and is silently dropped), and the persisted
state is membership-equal to `currentlyInside`. -/
theorem C1_point_diff_correctness (loc : Coords) (now : Nat) (st : ZoneState) :
    (∀ z : String,
      notifCount (handleLocationUpdate loc now st).notifications .ENTER z
        = if z ∈ specEntered (currentlyInsideIds loc) st.insideZones then 1 else 0)
  ∧ (∀ z : String,
      notifCount (handleLocationUpdate loc now st).notifications .EXIT z
        = if z ∈ TEST_GEOFENCES.map (·.identifier)
              ∧ z ∈ specExited st.insideZones (currentlyInsideIds loc) then 1 else 0)
  ∧ (∀ g : DisasterGeofence, g ∈ TEST_GEOFENCES →
      eventCount (handleLocationUpdate loc now st).events .ENTER g.description
        = if g.identifier ∈ specEntered (currentlyInsideIds loc) st.insideZones
          then 1 else 0)
  ∧ (∀ g : DisasterGeofence, g ∈ TEST_GEOFENCES →
      eventCount (handleLocationUpdate loc now st).events .EXIT g.description
        = if g.identifier ∈ specExited st.insideZones (currentlyInsideIds loc)
          then 1 else 0)
  ∧ (∀ z : String,
      (z ∈ (handleLocationUpdate loc now st).state.insideZones
        ↔ z ∈ currentlyInsideIds loc)) := by
  have hndid := test_geofences_ids_nodup
  have hnddesc := test_geofences_descriptions_nodup
  refine ⟨?_, ?_, ?_, ?_, ?_⟩
  · intro z
    rw [handleLocationUpdate, handleLocationUpdateOn_notifications,
      reconcileZones_enterCount,
      length_filter_key_eq (fun g => insideZone loc g && !(decide (g.identifier ∈ st.insideZones)))
        (·.identifier) z TEST_GEOFENCES hndid]
    refine if_congr ?_ rfl rfl
    have := mem_entered_iff (insideZone loc) st.insideZones TEST_GEOFENCES z
    unfold currentlyInsideIds
    exact this
  · intro z
    rw [handleLocationUpdate, handleLocationUpdateOn_notifications,
      reconcileZones_exitCount,
      length_filter_key_eq (fun g => !(insideZone loc g) && decide (g.identifier ∈ st.insideZones))
        (·.identifier) z TEST_GEOFENCES hndid]
    refine if_congr ?_ rfl rfl
    have := mem_exited_iff (insideZone loc) st.insideZones TEST_GEOFENCES hndid z
    unfold currentlyInsideIds
    exact this
  · intro g hg
    rw [handleLocationUpdate, handleLocationUpdateOn_events,
      reconcileZones_enterEventCount,
      length_filter_key_eq (fun g => insideZone loc g && !(decide (g.identifier ∈ st.insideZones)))
        (·.description) g.description TEST_GEOFENCES hnddesc]
    refine if_congr ?_ rfl rfl
    refine Iff.trans (mem_key_filter_iff _ (·.description) TEST_GEOFENCES hnddesc g hg) ?_
    have hins : insideZone loc g = true ↔ g.identifier ∈ currentlyInsideIds loc := by
      unfold currentlyInsideIds
      exact (mem_key_filter_iff (insideZone loc) (·.identifier) TEST_GEOFENCES hndid g hg).symm
    simp only [Bool.and_eq_true, Bool.not_eq_true', decide_eq_false_iff_not,
      specEntered, List.mem_filter, decide_eq_false_iff_not]
    exact and_congr hins Iff.rfl
  · intro g hg
    rw [handleLocationUpdate, handleLocationUpdateOn_events,
      reconcileZones_exitEventCount,
      length_filter_key_eq (fun g => !(insideZone loc g) && decide (g.identifier ∈ st.insideZones))
        (·.description) g.description TEST_GEOFENCES hnddesc]
    refine if_congr ?_ rfl rfl
    refine Iff.trans (mem_key_filter_iff _ (·.description) TEST_GEOFENCES hnddesc g hg) ?_
    have hins : insideZone loc g = true ↔ g.identifier ∈ currentlyInsideIds loc := by
      unfold currentlyInsideIds
      exact (mem_key_filter_iff (insideZone loc) (·.identifier) TEST_GEOFENCES hndid g hg).symm
    simp only [Bool.and_eq_true, Bool.not_eq_true', decide_eq_true_eq,
      specExited, List.mem_filter, decide_eq_false_iff_not]
    constructor
    · rintro ⟨hout, hprev⟩
      exact ⟨hprev, fun hcur => by simp [hins.mpr hcur] at hout⟩
    · rintro ⟨hprev, hcur⟩
      refine ⟨?_, hprev⟩
      cases hin : insideZone loc g
      · rfl
      · exact absurd (hins.mp hin) hcur
  · intro z
    rw [handleLocationUpdate]
    unfold currentlyInsideIds
    exact handleLocationUpdateOn_state_mem TEST_GEOFENCES (insideZone loc) loc now st z

/-- C1 counterexample: the claim's `exited = previouslyInside − currentlyInside`
rule fails for a persisted identifier that is not in the catalog — the loop
iterates over the catalog only, so the stale identifier `ghost` is in the
spec's exited set yet receives no EXIT notification. -/
theorem C1_stale_identifier_counterexample :
    ¬ (∀ (loc : Coords) (now : Nat) (st : ZoneState) (z : String),
        z ∈ specExited st.insideZones (currentlyInsideIds loc) →
        notifCount (handleLocationUpdate loc now st).notifications .EXIT z = 1) := by
  intro h
  have hnotin : ("ghost" : String) ∉ TEST_GEOFENCES.map (·.identifier) := by decide
  have hz : ("ghost" : String)
      ∈ specExited (ZoneState.mk ["ghost"] 0).insideZones
          (currentlyInsideIds ((0 : ℚ), (0 : ℚ))) := by
    simp only [specExited, List.mem_filter, Bool.not_eq_true', decide_eq_false_iff_not]
    refine ⟨by simp, ?_⟩
    intro hmem
    unfold currentlyInsideIds at hmem
    obtain ⟨g, hgf, hgid⟩ := List.mem_map.mp hmem
    exact hnotin (hgid ▸ List.mem_map.mpr ⟨g, List.mem_of_mem_filter hgf, rfl⟩)
  have h0 := h ((0 : ℚ), (0 : ℚ)) 0 (ZoneState.mk ["ghost"] 0) "ghost" hz
  rw [handleLocationUpdate, handleLocationUpdateOn_notifications,
    reconcileZones_exitCount,
    length_filter_key_eq
      (fun g => !(insideZone ((0 : ℚ), (0 : ℚ)) g)
        && decide (g.identifier ∈ (ZoneState.mk ["ghost"] 0).insideZones))
      (·.identifier) "ghost" TEST_GEOFENCES test_geofences_ids_nodup] at h0
  have hno : ("ghost" : String)
      ∉ (TEST_GEOFENCES.filter fun g => !(insideZone ((0 : ℚ), (0 : ℚ)) g)
          && decide (g.identifier ∈ (ZoneState.mk ["ghost"] 0).insideZones)).map
            (·.identifier) := by
    intro hmem
    obtain ⟨g, hgf, hgid⟩ := List.mem_map.mp hmem
    exact hnotin (hgid ▸ List.mem_map.mpr ⟨g, List.mem_of_mem_filter hgf, rfl⟩)
  rw [if_neg hno] at h0
  exact absurd h0 (by decide)

/-- C1 witness: the amended theorem applied to the first catalog zone at a
concrete point and the empty previous state. -/
theorem C1_point_diff_correctness_witness :
    (({ identifier := "flood-derby-center", type := .FLOOD, severity := .HIGH,
        latitude := 52.9225, longitude := -1.4746, radius := 1000,
        notifyOnEnter := true, notifyOnExit := true,
        description := "Derby City Centre - High Flood Risk Zone" } : DisasterGeofence)
      ∈ TEST_GEOFENCES)
    ∧ eventCount
        (handleLocationUpdate ((0 : ℚ), (0 : ℚ)) 0
          { insideZones := [], lastUpdated := 0 }).events .ENTER
        "Derby City Centre - High Flood Risk Zone"
      = (if "flood-derby-center"
            ∈ specEntered (currentlyInsideIds ((0 : ℚ), (0 : ℚ))) [] then 1 else 0) :=
  ⟨List.Mem.head _,
    (C1_point_diff_correctness ((0 : ℚ), (0 : ℚ)) 0
      { insideZones := [], lastUpdated := 0 }).2.2.1 _ (List.Mem.head _)⟩

/-- When a previous inside-list is membership-equal to the computed inside-set,
containment agrees with it on every catalog zone. -/
theorem agree_of_state_mem (loc : Coords) (prev : List String)
    (hp : ∀ z, z ∈ prev ↔ z ∈ (TEST_GEOFENCES.filter (insideZone loc)).map (·.identifier)) :
    ∀ g ∈ TEST_GEOFENCES, insideZone loc g = true ↔ g.identifier ∈ prev := by
  intro g hg
  exact Iff.trans
    (mem_key_filter_iff (insideZone loc) (·.identifier) TEST_GEOFENCES
      test_geofences_ids_nodup g hg).symm
    (hp g.identifier).symm

/-- C2: point-based reconciliation is idempotent — running a second pass at
the same point immediately after a first pass yields no notifications and no
log entries, for both the foreground watch handler and the one-shot initial
check (the first pass's state write makes the second diff empty). -/
theorem C2_point_reconciliation_idempotent (loc : Coords) (now1 now2 : Nat)
    (st : ZoneState) :
    ((handleLocationUpdate loc now2 (handleLocationUpdate loc now1 st).state).notifications = []
      ∧ (handleLocationUpdate loc now2 (handleLocationUpdate loc now1 st).state).events = [])
  ∧ ((checkInitialPosition (some loc) now2
        (checkInitialPosition (some loc) now1 st).state).notifications = []
      ∧ (checkInitialPosition (some loc) now2
        (checkInitialPosition (some loc) now1 st).state).events = []) := by
  constructor
  · have hmem : ∀ z, z ∈ (handleLocationUpdate loc now1 st).state.insideZones
        ↔ z ∈ (TEST_GEOFENCES.filter (insideZone loc)).map (·.identifier) := by
      intro z
      rw [handleLocationUpdate]
      exact handleLocationUpdateOn_state_mem TEST_GEOFENCES (insideZone loc) loc now1 st z
    have hnoem := reconcileZones_no_emissions "foreground_watch" (insideZone loc)
      (handleLocationUpdate loc now1 st).state.insideZones loc now2 TEST_GEOFENCES
      (agree_of_state_mem loc _ hmem)
    constructor
    · rw [handleLocationUpdate, handleLocationUpdateOn_notifications]
      exact hnoem.1
    · rw [handleLocationUpdate, handleLocationUpdateOn_events]
      exact hnoem.2
  · have hmem : ∀ z, z ∈ (checkInitialPosition (some loc) now1 st).state.insideZones
        ↔ z ∈ (TEST_GEOFENCES.filter (insideZone loc)).map (·.identifier) := by
      intro z
      rw [checkInitialPosition, checkInitialPositionOn_state]
    have hnoem := reconcileZones_no_emissions "initial_check" (insideZone loc)
      (checkInitialPosition (some loc) now1 st).state.insideZones loc now2 TEST_GEOFENCES
      (agree_of_state_mem loc _ hmem)
    constructor
    · rw [checkInitialPosition]
      exact hnoem.1
    · rw [checkInitialPosition]
      exact hnoem.2

/-- Adding an identifier leaves every other identifier's membership unchanged. -/
theorem addToInsideZones_frame (zoneId : String) (now : Nat) (st : ZoneState)
    (z : String) (hne : z ≠ zoneId) :
    (z ∈ (addToInsideZones zoneId now st).insideZones ↔ z ∈ st.insideZones) := by
  unfold addToInsideZones
  split
  · exact Iff.rfl
  · simp [hne]

/-- Removing an identifier leaves every other identifier's membership
unchanged. -/
theorem removeFromInsideZones_frame (zoneId : String) (now : Nat)
    (st : ZoneState) (z : String) (hne : z ≠ zoneId) :
    (z ∈ (removeFromInsideZones zoneId now st).insideZones ↔ z ∈ st.insideZones) := by
  unfold removeFromInsideZones
  split
  · exact List.mem_erase_of_ne hne
  · exact Iff.rfl

/-- C3: the signal-based form never alters occupancy for zones other than the
one named in the signal — for every task input whose region identifier (when
present at all) differs from `z`, membership of `z` is preserved; and on a
well-formed signal for a known zone it adds the named identifier on ENTER and
removes it on EXIT. -/
theorem C3_signal_frame_property :
    (∀ (body : TaskBody) (now : Nat) (st : ZoneState) (z : String),
        (∀ d, body.data = some d → ∀ r, d.region = some r →
          ∀ iden, r.identifier = some iden → z ≠ iden) →
        (z ∈ (geofenceTask body now st).state.insideZones ↔ z ∈ st.insideZones))
  ∧ (∀ (reg : LocationRegion) (now : Nat) (st : ZoneState) (iden : String)
        (g : DisasterGeofence),
        reg.identifier = some iden → getGeofenceDetails iden = some g →
        iden ∈ (geofenceTask
          { data := some { eventType := some .Enter, region := some reg },
            error := none } now st).state.insideZones)
  ∧ (∀ (reg : LocationRegion) (now : Nat) (st : ZoneState) (iden : String)
        (g : DisasterGeofence),
        reg.identifier = some iden → getGeofenceDetails iden = some g →
        st.insideZones.Nodup →
        iden ∉ (geofenceTask
          { data := some { eventType := some .Exit, region := some reg },
            error := none } now st).state.insideZones) := by
  refine ⟨?_, ?_, ?_⟩
  · intro body now st z hz
    obtain ⟨data, error⟩ := body
    cases error with
    | some msg => simp [geofenceTask]
    | none =>
      cases data with
      | none => simp [geofenceTask]
      | some d =>
        obtain ⟨et, reg⟩ := d
        cases et with
        | none => simp [geofenceTask]
        | some eventType =>
          cases reg with
          | none => simp [geofenceTask]
          | some region =>
            cases hid : region.identifier with
            | none => simp [geofenceTask, hid]
            | some iden =>
              have hne : z ≠ iden := hz _ rfl _ rfl iden hid
              cases hdet : getGeofenceDetails iden with
              | none => simp [geofenceTask, hid, hdet]
              | some geofence =>
                simp only [geofenceTask, Option.some_bind, hid, hdet]
                split
                · exact addToInsideZones_frame iden now st z hne
                · exact removeFromInsideZones_frame iden now st z hne
  · intro reg now st iden g hid hdet
    simp only [geofenceTask, Option.some_bind, hid, hdet]
    rw [if_pos (show decide True = true from rfl)]
    unfold addToInsideZones
    split
    · assumption
    · simp
  · intro reg now st iden g hid hdet hnd
    simp only [geofenceTask, Option.some_bind, hid, hdet]
    rw [if_neg (show ¬ decide (GeofencingEventType.Exit = GeofencingEventType.Enter)
      = true by decide)]
    unfold removeFromInsideZones
    split
    · exact hnd.not_mem_erase
    · assumption

/-- C3 witness: the frame part applied to a concrete ENTER signal for the
flood zone and an unrelated identifier `zzz` held in the state. -/
theorem C3_signal_frame_property_witness :
    (∀ d, (TaskBody.mk
        (some (GeofenceTaskData.mk (some .Enter)
          (some (LocationRegion.mk (some "flood-derby-center") 0 0 0 none none))))
        none).data = some d → ∀ r, d.region = some r →
        ∀ iden, r.identifier = some iden → ("zzz" : String) ≠ iden)
    ∧ (("zzz" : String) ∈ (geofenceTask (TaskBody.mk
          (some (GeofenceTaskData.mk (some .Enter)
            (some (LocationRegion.mk (some "flood-derby-center") 0 0 0 none none))))
          none) 7 (ZoneState.mk ["zzz"] 0)).state.insideZones
        ↔ ("zzz" : String) ∈ (ZoneState.mk ["zzz"] 0).insideZones) := by
  have hyp : ∀ d, (TaskBody.mk
      (some (GeofenceTaskData.mk (some .Enter)
        (some (LocationRegion.mk (some "flood-derby-center") 0 0 0 none none))))
      none).data = some d → ∀ r, d.region = some r →
      ∀ iden, r.identifier = some iden → ("zzz" : String) ≠ iden := by
    intro d hd r hr iden hi
    injection hd with hd
    subst hd
    injection hr with hr
    subst hr
    injection hi with hi
    subst hi
    decide
  exact ⟨hyp, C3_signal_frame_property.1 _ 7 (ZoneState.mk ["zzz"] 0) "zzz" hyp⟩

/-- C4 counterexample: when the background watch is not registered,
`stopGeofencing` returns early and the stale occupancy state survives —
refuting "after stop() the persisted state is empty for every registration
status". -/
theorem C4_stop_skips_clear_counterexample :
    ¬ (∀ (registered : Bool) (stored : Option ZoneState),
        (getZoneState (stopGeofencing registered stored).stored 0).insideZones = []) := by
  intro h
  have := h false (some { insideZones := ["flood-derby-center"], lastUpdated := 0 })
  simp [stopGeofencing, getZoneState] at this

/-- C4 (amended): `stopGeofencing` always stops the foreground watch; when the
background watch is registered it unregisters it and clears the persisted
occupancy state (so the next load sees an empty state); when it is not
registered it returns early and leaves the stored state untouched. -/
theorem C4_stop_clears_state_when_registered (stored : Option ZoneState) (now : Nat) :
    ((stopGeofencing true stored).stored = none
      ∧ (stopGeofencing true stored).fgWatchStopped = true
      ∧ (stopGeofencing true stored).bgUnregistered = true
      ∧ getZoneState (stopGeofencing true stored).stored now
          = { insideZones := [], lastUpdated := now })
  ∧ ((stopGeofencing false stored).stored = stored
      ∧ (stopGeofencing false stored).fgWatchStopped = true
      ∧ (stopGeofencing false stored).bgUnregistered = false) := by
  simp [stopGeofencing, getZoneState, clearZoneState]

/-- C5: the event log is bounded by 50 entries from empty through any append
sequence, the bound is preserved by a single append, appending to a full log
evicts the last (oldest) entry, and every append places the new event at the
front. -/
theorem C5_event_log_bounded :
    (∀ es : List GeofenceEvent, (es.foldl (fun l e => logEvent e l) []).length ≤ 50)
  ∧ (∀ (e : GeofenceEvent) (l : List GeofenceEvent), l.length ≤ 50 →
      (logEvent e l).length ≤ 50)
  ∧ (∀ (e : GeofenceEvent) (l : List GeofenceEvent), l.length = 50 →
      logEvent e l = e :: l.dropLast)
  ∧ (∀ (e : GeofenceEvent) (l : List GeofenceEvent), (logEvent e l).head? = some e) := by
  have hpres : ∀ (e : GeofenceEvent) (l : List GeofenceEvent), l.length ≤ 50 →
      (logEvent e l).length ≤ 50 := by
    intro e l hl
    unfold logEvent
    dsimp only
    split
    · simp only [List.length_dropLast, List.length_cons]
      omega
    · rename_i h
      simp only [List.length_cons, not_lt] at h ⊢
      omega
  refine ⟨?_, hpres, ?_, ?_⟩
  · intro es
    have hgen : ∀ (es : List GeofenceEvent) (l : List GeofenceEvent), l.length ≤ 50 →
        (es.foldl (fun l e => logEvent e l) l).length ≤ 50 := by
      intro es
      induction es with
      | nil => intro l hl; simpa using hl
      | cons e rest ih =>
        intro l hl
        exact ih _ (hpres e l hl)
    exact hgen es [] (by simp)
  · intro e l hl
    unfold logEvent
    have hcond : (e :: l).length > 50 := by simp [hl]
    rw [if_pos hcond]
    have hne : l ≠ [] := by
      intro hnil
      rw [hnil] at hl
      simp at hl
    exact List.dropLast_cons_of_ne_nil hne
  · intro e l
    unfold logEvent
    dsimp only
    split
    · rename_i h
      cases l with
      | nil => simp at h
      | cons a as =>
        rw [List.dropLast_cons_of_ne_nil (by simp)]
        rfl
    · rfl

/-- C5 witness: appending to a log of exactly 50 entries evicts the oldest. -/
theorem C5_event_log_bounded_witness :
    (List.replicate 50 ({ type := .ENTER, timestamp := 0 } : GeofenceEvent)).length = 50
    ∧ logEvent { type := .ENTER, timestamp := 0 }
        (List.replicate 50 ({ type := .ENTER, timestamp := 0 } : GeofenceEvent))
      = ({ type := .ENTER, timestamp := 0 } : GeofenceEvent)
          :: (List.replicate 50 ({ type := .ENTER, timestamp := 0 } : GeofenceEvent)).dropLast :=
  ⟨by simp, C5_event_log_bounded.2.2.1 _ _ (by simp)⟩

/-- C6: the composer is total over the 5 x 4 enumerations; entry templates are
pairwise distinct and non-empty; exit always yields the one shared template,
at default priority, independent of category and severity. -/
theorem C6_composer_total_distinct_exit_uniform :
    (∀ (t1 : DisasterType) (s1 : SeverityLevel) (t2 : DisasterType)
        (s2 : SeverityLevel),
        getDisasterAlertContent t1 s1 true = getDisasterAlertContent t2 s2 true →
        t1 = t2 ∧ s1 = s2)
  ∧ (∀ (t : DisasterType) (s : SeverityLevel),
      (getDisasterAlertContent t s true).title ≠ ""
        ∧ (getDisasterAlertContent t s true).body ≠ "")
  ∧ (∀ (t : DisasterType) (s : SeverityLevel),
      getDisasterAlertContent t s false = getDisasterAlertContent .FLOOD .INFO false)
  ∧ (∀ (t : DisasterType) (s : SeverityLevel),
      (getDisasterAlertContent t s false).priority = .default) := by
  refine ⟨?_, ?_, ?_, ?_⟩ <;> decide

/-- C6 witness: the injectivity part applied at a concrete equal pair. -/
theorem C6_composer_total_distinct_exit_uniform_witness :
    (getDisasterAlertContent .FLOOD .INFO true = getDisasterAlertContent .FLOOD .INFO true)
    ∧ (DisasterType.FLOOD = DisasterType.FLOOD ∧ SeverityLevel.INFO = SeverityLevel.INFO) :=
  ⟨rfl, C6_composer_total_distinct_exit_uniform.1 .FLOOD .INFO .FLOOD .INFO rfl⟩

/-- C7: for every category the entry alert's delivery priority is monotone in
severity (INFO < WARNING < HIGH < CRITICAL maps to DEFAULT, HIGH, MAX, MAX),
CRITICAL always carries MAX, and MAX is the greatest delivery priority. -/
theorem C7_priority_monotone :
    (∀ (t : DisasterType) (s1 s2 : SeverityLevel),
        severityRank s1 ≤ severityRank s2 →
        priorityRank (getDisasterAlertContent t s1 true).priority
          ≤ priorityRank (getDisasterAlertContent t s2 true).priority)
  ∧ (∀ t : DisasterType, (getDisasterAlertContent t .CRITICAL true).priority = .max)
  ∧ (∀ p : AndroidNotificationPriority,
      priorityRank p ≤ priorityRank AndroidNotificationPriority.max) := by
  refine ⟨?_, ?_, ?_⟩ <;> decide

/-- C7 witness: monotonicity applied from INFO to CRITICAL for FLOOD. -/
theorem C7_priority_monotone_witness :
    severityRank .INFO ≤ severityRank .CRITICAL
    ∧ priorityRank (getDisasterAlertContent .FLOOD .INFO true).priority
        ≤ priorityRank (getDisasterAlertContent .FLOOD .CRITICAL true).priority :=
  ⟨by decide, C7_priority_monotone.1 .FLOOD .INFO .CRITICAL (by decide)⟩

/-- C8: positioning failures are atomic — if the background task receives an
error, or the delivered data lacks an event type, region, or region
identifier, and likewise if the initial check's position query fails, then the
pass emits a diagnostic, dispatches no notification, and leaves the occupancy
state unchanged. -/
theorem C8_positioning_failure_atomic :
    (∀ (body : TaskBody) (now : Nat) (st : ZoneState),
        (body.error ≠ none
          ∨ body.data.bind (·.eventType) = none
          ∨ body.data.bind (·.region) = none
          ∨ (∃ r, body.data.bind (·.region) = some r ∧ r.identifier = none)) →
        ((geofenceTask body now st).state = st
          ∧ (geofenceTask body now st).notifications = []
          ∧ (geofenceTask body now st).diagnostics ≠ []))
  ∧ (∀ (now : Nat) (st : ZoneState),
      (checkInitialPosition none now st).state = st
        ∧ (checkInitialPosition none now st).notifications = []
        ∧ (checkInitialPosition none now st).diagnostics ≠ []) := by
  constructor
  · intro body now st hbad
    obtain ⟨data, error⟩ := body
    cases error with
    | some msg => simp [geofenceTask]
    | none =>
      cases data with
      | none => simp [geofenceTask]
      | some d =>
        obtain ⟨et, reg⟩ := d
        cases et with
        | none => simp [geofenceTask]
        | some eventType =>
          cases reg with
          | none => simp [geofenceTask]
          | some region =>
            rcases hbad with herr | het | hreg | ⟨r, hr, hid⟩
            · exact absurd rfl herr
            · simp at het
            · simp at hreg
            · simp only [Option.some_bind] at hr
              injection hr with hr
              subst hr
              simp [geofenceTask, hid]
  · intro now st
    simp [checkInitialPosition]

/-- C8 witness: the task applied to an errored input. -/
theorem C8_positioning_failure_atomic_witness :
    ((TaskBody.mk none (some "boom")).error ≠ none
      ∨ (TaskBody.mk none (some "boom")).data.bind (·.eventType) = none
      ∨ (TaskBody.mk none (some "boom")).data.bind (·.region) = none
      ∨ (∃ r, (TaskBody.mk none (some "boom")).data.bind (·.region) = some r
          ∧ r.identifier = none))
    ∧ ((geofenceTask (TaskBody.mk none (some "boom")) 0 (ZoneState.mk [] 0)).state
          = ZoneState.mk [] 0
        ∧ (geofenceTask (TaskBody.mk none (some "boom")) 0 (ZoneState.mk [] 0)).notifications = []
        ∧ (geofenceTask (TaskBody.mk none (some "boom")) 0 (ZoneState.mk [] 0)).diagnostics ≠ []) :=
  ⟨Or.inl (by simp),
    C8_positioning_failure_atomic.1 (TaskBody.mk none (some "boom")) 0
      (ZoneState.mk [] 0) (Or.inl (by simp))⟩

/-- C9: the point-based reconciler treats the point as inside a catalog zone
exactly when the haversine distance from the zone center to the point is less
than or equal to the zone radius — the boundary counts as inside. -/
theorem C9_containment_boundary_inclusive (loc : Coords) (now : Nat)
    (st : ZoneState) (g : DisasterGeofence) (hg : g ∈ TEST_GEOFENCES) :
    (g.identifier ∈ (handleLocationUpdate loc now st).state.insideZones
      ↔ calculateDistance (loc.1 : ℝ) (loc.2 : ℝ) (g.latitude : ℝ) (g.longitude : ℝ)
          ≤ (g.radius : ℝ)) := by
  rw [handleLocationUpdate]
  refine Iff.trans
    (handleLocationUpdateOn_state_mem TEST_GEOFENCES (insideZone loc) loc now st
      g.identifier) ?_
  refine Iff.trans
    (mem_key_filter_iff (insideZone loc) (·.identifier) TEST_GEOFENCES
      test_geofences_ids_nodup g hg) ?_
  unfold insideZone
  exact ⟨fun h => of_decide_eq_true h,
    fun h => @decide_eq_true (zoneContains g loc) (Classical.propDecidable _) h⟩

/-- C9 witness: applied to the flood zone with the observed point at its own
center (distance 0, which is within the radius). -/
theorem C9_containment_boundary_inclusive_witness :
    (({ identifier := "flood-derby-center", type := .FLOOD, severity := .HIGH,
        latitude := 52.9225, longitude := -1.4746, radius := 1000,
        notifyOnEnter := true, notifyOnExit := true,
        description := "Derby City Centre - High Flood Risk Zone" } : DisasterGeofence)
      ∈ TEST_GEOFENCES)
    ∧ (("flood-derby-center" : String)
        ∈ (handleLocationUpdate ((52.9225 : ℚ), (-1.4746 : ℚ)) 0
            (ZoneState.mk [] 0)).state.insideZones
      ↔ calculateDistance ((52.9225 : ℚ) : ℝ) ((-1.4746 : ℚ) : ℝ)
          ((52.9225 : ℚ) : ℝ) ((-1.4746 : ℚ) : ℝ) ≤ ((1000 : ℚ) : ℝ)) :=
  ⟨List.Mem.head _,
    C9_containment_boundary_inclusive ((52.9225 : ℚ), (-1.4746 : ℚ)) 0
      (ZoneState.mk [] 0) _ (List.Mem.head _)⟩

/-- The initial check's notifications are those of the loop. -/
theorem checkInitialPositionOn_notifications (cat : List DisasterGeofence)
    (inside : DisasterGeofence → Bool) (loc : Coords) (now : Nat) (st : ZoneState) :
    (checkInitialPositionOn cat inside loc now st).notifications
      = (reconcileZones "initial_check" inside st.insideZones loc now cat).notifications := rfl

/-- C10: both point-based paths dispatch purely from the containment diff and
ignore the per-zone notify flags — a zone with `notifyOnEnter = false` whose
entry is detected still gets an ENTER alert, and symmetrically for
`notifyOnExit = false` on exit; only the background region registration
passes the flags through to the platform. -/
theorem C10_notify_flags_ignored_point_paths :
    (∀ (catalog : List DisasterGeofence) (inside : DisasterGeofence → Bool)
        (loc : Coords) (now : Nat) (st : ZoneState) (g : DisasterGeofence),
        g ∈ catalog → g.notifyOnEnter = false → inside g = true →
        g.identifier ∉ st.insideZones →
        1 ≤ notifCount (handleLocationUpdateOn catalog inside loc now st).notifications
              .ENTER g.identifier
        ∧ 1 ≤ notifCount (checkInitialPositionOn catalog inside loc now st).notifications
              .ENTER g.identifier)
  ∧ (∀ (catalog : List DisasterGeofence) (inside : DisasterGeofence → Bool)
        (loc : Coords) (now : Nat) (st : ZoneState) (g : DisasterGeofence),
        g ∈ catalog → g.notifyOnExit = false → inside g = false →
        g.identifier ∈ st.insideZones →
        1 ≤ notifCount (handleLocationUpdateOn catalog inside loc now st).notifications
              .EXIT g.identifier
        ∧ 1 ≤ notifCount (checkInitialPositionOn catalog inside loc now st).notifications
              .EXIT g.identifier)
  ∧ (∀ catalog : List DisasterGeofence,
      (startGeofencingRegions catalog).map (·.notifyOnEnter)
          = catalog.map (fun g => some g.notifyOnEnter)
        ∧ (startGeofencingRegions catalog).map (·.notifyOnExit)
          = catalog.map (fun g => some g.notifyOnExit)) := by
  refine ⟨?_, ?_, ?_⟩
  · intro catalog inside loc now st g hg hflag hin hprev
    have hmem : g ∈ catalog.filter
        (fun h => inside h && !(decide (h.identifier ∈ st.insideZones))
          && h.identifier == g.identifier) :=
      List.mem_filter.mpr ⟨hg, by simp [hin, hprev]⟩
    constructor
    · rw [handleLocationUpdateOn_notifications, reconcileZones_enterCount]
      exact List.length_pos_of_mem hmem
    · rw [checkInitialPositionOn_notifications, reconcileZones_enterCount]
      exact List.length_pos_of_mem hmem
  · intro catalog inside loc now st g hg hflag hin hprev
    have hmem : g ∈ catalog.filter
        (fun h => !(inside h) && decide (h.identifier ∈ st.insideZones)
          && h.identifier == g.identifier) :=
      List.mem_filter.mpr ⟨hg, by simp [hin, hprev]⟩
    constructor
    · rw [handleLocationUpdateOn_notifications, reconcileZones_exitCount]
      exact List.length_pos_of_mem hmem
    · rw [checkInitialPositionOn_notifications, reconcileZones_exitCount]
      exact List.length_pos_of_mem hmem
  · intro catalog
    constructor <;> simp [startGeofencingRegions]

/-- C10 witness: a single-zone catalog with `notifyOnEnter = false`, a
containment test reporting inside, and an empty previous state — the pass
still dispatches the ENTER alert. -/
theorem C10_notify_flags_ignored_point_paths_witness :
    (({ identifier := "quiet-zone", type := .FLOOD, severity := .INFO,
        latitude := 0, longitude := 0, radius := 1,
        notifyOnEnter := false, notifyOnExit := false,
        description := "Quiet Zone" } : DisasterGeofence)
      ∈ [({ identifier := "quiet-zone", type := .FLOOD, severity := .INFO,
            latitude := 0, longitude := 0, radius := 1,
            notifyOnEnter := false, notifyOnExit := false,
            description := "Quiet Zone" } : DisasterGeofence)]
      ∧ ({ identifier := "quiet-zone", type := .FLOOD, severity := .INFO,
            latitude := 0, longitude := 0, radius := 1,
            notifyOnEnter := false, notifyOnExit := false,
            description := "Quiet Zone" } : DisasterGeofence).notifyOnEnter = false
      ∧ ("quiet-zone" : String) ∉ (ZoneState.mk [] 0).insideZones)
    ∧ (1 ≤ notifCount (handleLocationUpdateOn
          [({ identifier := "quiet-zone", type := .FLOOD, severity := .INFO,
              latitude := 0, longitude := 0, radius := 1,
              notifyOnEnter := false, notifyOnExit := false,
              description := "Quiet Zone" } : DisasterGeofence)]
          (fun _ => true) ((0 : ℚ), (0 : ℚ)) 0 (ZoneState.mk [] 0)).notifications
          .ENTER "quiet-zone"
      ∧ 1 ≤ notifCount (checkInitialPositionOn
          [({ identifier := "quiet-zone", type := .FLOOD, severity := .INFO,
              latitude := 0, longitude := 0, radius := 1,
              notifyOnEnter := false, notifyOnExit := false,
              description := "Quiet Zone" } : DisasterGeofence)]
          (fun _ => true) ((0 : ℚ), (0 : ℚ)) 0 (ZoneState.mk [] 0)).notifications
          .ENTER "quiet-zone") :=
  ⟨⟨List.Mem.head _, rfl, by simp⟩,
    C10_notify_flags_ignored_point_paths.1 _ (fun _ => true) ((0 : ℚ), (0 : ℚ)) 0
      (ZoneState.mk [] 0) _ (List.Mem.head _) rfl rfl (by simp)⟩
